import Mathlib

/-!
Verification development for the Tenexa RunPod serverless handler
(`handler.py`).  The definitions below are a shallow embedding of the
execution-orchestration core: the WebSocket execution monitor
(`wait_for_completion`), the workflow patching / parameter application
performed by `handle_generate_mode`, the artifact resolver
(`find_output_video`), and the mode dispatch of `handler`.

Modelling conventions:
* wall-clock time is modelled as natural-number durations: each stream
  read is tagged with the time `dt` it consumed, and `elapsed` is the
  running total checked against the budget exactly where the source
  re-computes `time.time() - start`;
* the filesystem is passed explicitly (`String → Bool` for existence,
  an association list of staged file names for the input directory);
* external I/O (image decoding, template loading, queue submission,
  WebSocket connect, history retrieval, video encoding) is supplied by
  an environment record whose `Except` values model the exceptions the
  corresponding Python calls can raise;
* numeric request parameters are modelled as integers: none of the
  verified properties depends on float precision, only on which slots
  of the workflow graph receive which request values.
-/

/-- A single frame obtained from one `ws.recv()` call inside
`wait_for_completion`: either the 5-second read timeout fired
(`websocket.WebSocketTimeoutException`), a binary frame (skipped), a
text frame that fails JSON parsing (skipped), or a parsed JSON message
with its `type`, `data.node`, `data.prompt_id` fields and the serialized
`data` payload (used verbatim in the `execution_error` message). -/
inductive WsFrame where
  | timeoutRead : WsFrame
  | binary : WsFrame
  | nonJson : WsFrame
  | msg (ty : String) (node : Option String) (promptId : Option String)
      (payload : String) : WsFrame
deriving DecidableEq

/-- The serialized `data` payload of a JSON frame (empty for the other
frame kinds, which never reach the error branch). -/
def WsFrame.payload : WsFrame → String
  | .msg _ _ _ pay => pay
  | _ => ""

/-- A stream read together with the wall-clock time it consumed. -/
structure TimedFrame where
  dt : Nat
  frame : WsFrame
deriving DecidableEq

/-- Terminal result of the execution monitor.  `completed` models the
`return get_history(prompt_id).get(prompt_id, {})` path, `faulted p`
the `raise RuntimeError(...)` path carrying the serialized error data
`p`, `timedOut` the `raise TimeoutError(...)` path, and `exhausted` the
model artifact of the finite event list ending (in the source a closed
socket raises out of the loop). -/
inductive MonitorResult where
  | completed : MonitorResult
  | faulted (payload : String) : MonitorResult
  | timedOut : MonitorResult
  | exhausted : MonitorResult
deriving DecidableEq

/-- Does the frame satisfy the completion condition of
`wait_for_completion`: an `executing` message whose `data.node` is
`None` and whose `data.prompt_id` equals the awaited prompt id? -/
def isCompletionFrame (promptId : String) : WsFrame → Bool
  | .msg ty node pid _ => ty == "executing" && node.isNone && pid == some promptId
  | _ => false

/-- Does the frame trigger the error branch of `wait_for_completion`:
any message with `type == "execution_error"` (the source performs no
prompt-id check on this branch)? -/
def isErrorFrame : WsFrame → Bool
  | .msg ty _ _ _ => ty == "execution_error"
  | _ => false

/-- A frame on which the monitor loop terminates. -/
def isTerminalFrame (promptId : String) (f : WsFrame) : Bool :=
  isCompletionFrame promptId f || isErrorFrame f

/-- Shallow embedding of `wait_for_completion` (handler.py:391-433).
The loop re-checks `elapsed > timeout` before every read; a read either
times out after a bounded interval, yields a skipped binary/non-JSON
frame, or yields a JSON message that is tested first for the completion
condition and then for `execution_error`. -/
def wait_for_completion (timeout : Nat) (promptId : String) :
    Nat → List TimedFrame → MonitorResult
  | elapsed, [] => if timeout < elapsed then .timedOut else .exhausted
  | elapsed, tf :: rest =>
    if timeout < elapsed then .timedOut
    else
      match tf.frame with
      | .timeoutRead => wait_for_completion timeout promptId (elapsed + tf.dt) rest
      | .binary => wait_for_completion timeout promptId (elapsed + tf.dt) rest
      | .nonJson => wait_for_completion timeout promptId (elapsed + tf.dt) rest
      | .msg ty node pid payload =>
        if ty == "executing" && node.isNone && pid == some promptId then
          .completed
        else if ty == "execution_error" then
          .faulted payload
        else
          wait_for_completion timeout promptId (elapsed + tf.dt) rest

/-- Total time consumed by a list of reads. -/
def sumDt (l : List TimedFrame) : Nat := (l.map TimedFrame.dt).sum

/-- A scalar value stored in the `inputs` mapping of a workflow node.
Numbers are modelled as integers: the verified properties concern only
which slots receive which request values, never float arithmetic. -/
inductive WValue where
  | str (s : String) : WValue
  | num (n : Int) : WValue
deriving DecidableEq

/-- The `inputs` mapping of one workflow node, as an insertion-ordered
association list (Python dicts preserve insertion order). -/
abbrev NodeInputs := List (String × WValue)

/-- A workflow template: insertion-ordered mapping from node identifier
to the `inputs` mapping of that node.  Per the data model every node
record carries an `inputs` mapping, so the source guard testing that
the node has an `inputs` key
guard is always satisfied for a present node. -/
abbrev Workflow := List (String × NodeInputs)

/-- Python dict assignment `m[k] = v`: replace the value of the key in
place when present, append the pair otherwise (dicts keep insertion
order). -/
def setKey : NodeInputs → String → WValue → NodeInputs
  | [], k, v => [(k, v)]
  | p :: rest, k, v =>
    if p.1 == k then (p.1, v) :: rest else p :: setKey rest k v

/-- Python membership test `node_id in workflow`. -/
def containsNode (w : Workflow) (nid : String) : Bool :=
  w.any (fun p => p.1 == nid)

/-- The assignment `workflow[nid]["inputs"][k] = v` on the entry whose
node identifier is `nid` (no effect when the node is absent; all uses
in the source are guarded by a membership test). -/
def setInput : Workflow → String → String → WValue → Workflow
  | [], _, _, _ => []
  | p :: rest, nid, k, v =>
    if p.1 == nid then (p.1, setKey p.2 k v) :: rest
    else p :: setInput rest nid k v

/-- Read back an input value: `workflow[nid]["inputs"][k]` when both
levels are present. -/
def lookupInput (w : Workflow) (nid k : String) : Option WValue :=
  (w.lookup nid).bind (fun inputs => inputs.lookup k)

/-- Shallow embedding of `patch_workflow_image` (handler.py:357-363):
when the node is present its `image` input is overwritten; when it is
absent the source only logs a warning and returns with the workflow
untouched. -/
def patch_workflow_image (w : Workflow) (imageFilename : String)
    (nodeId : String) : Workflow :=
  if containsNode w nodeId then
    setInput w nodeId "image" (.str imageFilename)
  else
    w

/-- Shallow embedding of the parameter application block of
`handle_generate_mode` (handler.py:571-582): `num_frames` into node
`541`, `seed`/`cfg`/`steps` into node `220`, `seed`/`cfg` into node
`540`, each block guarded by a membership test and skipped without
error when the node is absent. -/
def applyParams (w : Workflow) (seed cfg steps numFrames : Int) : Workflow :=
  let w1 := if containsNode w "541" then
    setInput w "541" "num_frames" (.num numFrames) else w
  let w2 := if containsNode w1 "220" then
    setInput (setInput (setInput w1 "220" "seed" (.num seed))
      "220" "cfg" (.num cfg)) "220" "steps" (.num steps) else w1
  if containsNode w2 "540" then
    setInput (setInput w2 "540" "seed" (.num seed)) "540" "cfg" (.num cfg)
  else w2

/-- One artifact entry of a history output node: `item.get("filename")`
(absent modelled as `none`; the source also skips a present-but-empty
filename) and `item.get("subfolder", "")`. -/
structure OutItem where
  filename : Option String
  subfolder : String
deriving DecidableEq

/-- The output mapping of one history node: the `videos` and `gifs`
keys checked by the source (`none` models an absent key; the source
also requires the value to be a list, so only list-shaped values are
represented). -/
structure NodeOut where
  videos : Option (List OutItem)
  gifs : Option (List OutItem)
deriving DecidableEq

/-- The `outputs` mapping of a history record, in iteration order.
`wait_for_completion` returns `get_history(pid).get(pid, {})` and the
resolver reads its `outputs` key; the model carries that mapping
directly. -/
abbrev History := List (String × NodeOut)

/-- The engine output root `COMFY_OUTPUT_DIR` with the default
`COMFY_ROOT`. -/
def COMFY_OUTPUT_DIR : String := "/ComfyUI/output"

/-- The Python `str.endswith` method, stated over the character list so that it
evaluates inside the kernel. -/
def strEndsWith (s suffix : String) : Bool :=
  List.isSuffixOf suffix.data s.data

/-- The source check that the full path ends with `.mp4` or `.gif`. -/
def hasVideoExt (p : String) : Bool :=
  strEndsWith p ".mp4" || strEndsWith p ".gif"

/-- Resolve an item to an absolute path: skip missing/empty filenames,
join `COMFY_OUTPUT_DIR / subfolder / filename` (subfolder omitted when
empty), as in handler.py:455-462. -/
def itemPath (it : OutItem) : Option String :=
  match it.filename with
  | none => none
  | some f =>
    if f == "" then none
    else if it.subfolder == "" then some (COMFY_OUTPUT_DIR ++ "/" ++ f)
    else some (COMFY_OUTPUT_DIR ++ "/" ++ it.subfolder ++ "/" ++ f)

/-- A verified candidate: the resolved path when it exists on disk and
carries a video extension (handler.py:464-466), `none` otherwise. -/
def goodPath (fileExists : String → Bool) (it : OutItem) : Option String :=
  match itemPath it with
  | none => none
  | some p => if fileExists p && hasVideoExt p then some p else none

/-- The per-node candidate items in the order the source scans them:
the `videos` list first, then the `gifs` list. -/
def nodeItems (n : NodeOut) : List OutItem :=
  n.videos.getD [] ++ n.gifs.getD []

/-- The history-based scan of `find_output_video` (handler.py:441-466):
iterate output nodes in record order, inside each node iterate the
`videos` then `gifs` items, and return the first verified candidate. -/
def scanOutputs (fileExists : String → Bool) : History → Option String
  | [] => none
  | (_, n) :: rest =>
    match (nodeItems n).findSome? (goodPath fileExists) with
    | some p => some p
    | none => scanOutputs fileExists rest

/-- Modelled from the resolver ordering contract of the spec: the full list
of verified-existing candidate paths in the iteration order of the
history record, against which the single result of the implementation is
compared. -/
def orderedCandidates (fileExists : String → Bool) (h : History) : List String :=
  (h.flatMap (fun p => nodeItems p.2)).filterMap (goodPath fileExists)

/-- The directory fallback of `find_output_video` (handler.py:468-481):
collect the walked files ending in `.mp4` with their mtimes, sort by
mtime descending (the Python sort is stable, so the first maximal element
in walk order wins) and return the newest.  The walk is supplied as an
explicit list of (path, mtime) pairs. -/
def newestMp4 (dirFiles : List (String × Nat)) : Option String :=
  ((dirFiles.filter (fun p => strEndsWith p.1 ".mp4")).foldl
    (fun acc p =>
      match acc with
      | none => some p
      | some q => if q.2 < p.2 then some p else some q)
    none).map (fun p => p.1)

/-- Shallow embedding of `find_output_video` (handler.py:436-485): the
history scan, then the newest-mp4 directory fallback, then `None`. -/
def find_output_video (fileExists : String → Bool)
    (dirFiles : List (String × Nat)) (h : History) : Option String :=
  match scanOutputs fileExists h with
  | some p => some p
  | none => newestMp4 dirFiles

/-- A JSON scalar as found in the job-input mapping (used for the
fields the handler compares by identity or ignores). -/
inductive JValue where
  | bool (b : Bool) : JValue
  | num (n : Int) : JValue
  | str (s : String) : JValue
  | null : JValue
deriving DecidableEq

/-- The job-input mapping (`job["input"]`), with one optional field per
key the handler reads; `width` and `height` are carried because
requests may include them, whether or not the handler consults them.
Numeric parameters are modelled already converted (the `int()`/
`float()` coercions are outside the verified properties). -/
structure JobInput where
  test : Option JValue
  diagnose : Option JValue
  image_base64 : Option String
  end_image_base64 : Option String
  workflow : Option String
  seed : Option Int
  cfg : Option Int
  steps : Option Int
  frames : Option Int
  width : Option JValue
  height : Option JValue
deriving DecidableEq

/-- The job input with every key absent. -/
def emptyJobInput : JobInput :=
  ⟨none, none, none, none, none, none, none, none, none, none, none⟩

/-- Replace only the `width`/`height` fields of a job input. -/
def withDims (j : JobInput) (wv hv : Option JValue) : JobInput :=
  ⟨j.test, j.diagnose, j.image_base64, j.end_image_base64, j.workflow,
   j.seed, j.cfg, j.steps, j.frames, wv, hv⟩

/-- The structured result dictionary returned by the handler, reduced
to the fields the verified claims are about (`status`, `error_code`,
`error_message`, and for success `video_base64` and `seed`; the other
response fields — fps, duration, metadata, logs tail — carry no
verified property). -/
structure HandlerResult where
  status : String
  error_code : Option String
  error_message : Option String
  video_base64 : Option String
  seed : Option Int
deriving DecidableEq

/-- The external world of one generate run.  Each field supplies the
outcome of one I/O interaction of `handle_generate_mode`: `Except`
errors model the exceptions the corresponding Python call can raise
(all of which the source catches into a failed result). -/
structure GenEnv where
  comfyReady : Bool
  readyTimeout : Nat
  execTimeout : Nat
  saveInputResult : Except String Unit
  saveEndResult : Except String Unit
  loadWorkflowResult : String → Except String Workflow
  nowSeed : Int
  queueResponse : Except String (Option String)
  wsConnectResult : Except String Unit
  frames : List TimedFrame
  history : History
  fileExists : String → Bool
  dirFiles : List (String × Nat)
  encodeResult : String → Except String String

/-- The set of files staged in the ComfyUI input directory. -/
abbrev StagedFiles := List String

/-- The fixed staging name for the primary input image
(handler.py:535). -/
def inputFilename : String := "tenexa_input.png"

/-- The fixed staging name for the FLF2V end image (handler.py:551). -/
def endFilename : String := "tenexa_end.png"

/-- A failed result dictionary with its machine-readable code and
human-readable message. -/
def failedResult (code msg : String) : HandlerResult :=
  ⟨"failed", some code, some msg, none, none⟩

/-- The tail of `handle_generate_mode` from workflow loading onward
(handler.py:556-651): load the template, patch the image slots, apply
the numeric parameters, submit, monitor, resolve and encode; every
raised exception is mapped to a failed result by the source
`except TimeoutError` / `except Exception` clauses, and the staged
files are never removed on any path. -/
def generateCore (env : GenEnv) (job : JobInput) (staged : StagedFiles)
    (isFlf : Bool) : HandlerResult × StagedFiles :=
  let workflowFile := if isFlf then "new_Wan22_flf2v_api.json"
    else "new_Wan22_api.json"
  match env.loadWorkflowResult workflowFile with
  | .error e => (failedResult "GENERATION_ERROR" e, staged)
  | .ok w =>
    let w1 := patch_workflow_image w inputFilename "244"
    let w2 := if isFlf then patch_workflow_image w1 endFilename "617" else w1
    let seed := job.seed.getD env.nowSeed
    let cfg := job.cfg.getD 2
    let steps := job.steps.getD 10
    let numFrames := job.frames.getD 81
    let _bound := applyParams w2 seed cfg steps numFrames
    match env.queueResponse with
    | .error e => (failedResult "GENERATION_ERROR" e, staged)
    | .ok none =>
      (failedResult "QUEUE_FAILED" "ComfyUI did not return prompt_id", staged)
    | .ok (some promptId) =>
      match env.wsConnectResult with
      | .error e => (failedResult "GENERATION_ERROR" e, staged)
      | .ok _ =>
        match wait_for_completion env.execTimeout promptId 0 env.frames with
        | .timedOut =>
          (failedResult "TIMEOUT"
            ("Execution timeout after " ++ toString env.execTimeout ++ "s"),
            staged)
        | .exhausted =>
          (failedResult "GENERATION_ERROR" "Connection to remote host was lost.",
            staged)
        | .faulted payload =>
          (failedResult "GENERATION_ERROR"
            ("ComfyUI execution error: " ++ payload), staged)
        | .completed =>
          match find_output_video env.fileExists env.dirFiles env.history with
          | none =>
            (failedResult "NO_OUTPUT" "No video file generated", staged)
          | some path =>
            match env.encodeResult path with
            | .error e => (failedResult "GENERATION_ERROR" e, staged)
            | .ok vb64 =>
              (⟨"completed", none, none, some vb64, some seed⟩, staged)

/-- Shallow embedding of `handle_generate_mode` (handler.py:510-651):
readiness gate, required-image checks, image staging (writing the two
fixed filenames into the shared input directory) and the generate core.
The returned `StagedFiles` is the input-directory state after the run:
no path of the source deletes a staged file. -/
def handle_generate_mode (env : GenEnv) (job : JobInput)
    (staged : StagedFiles) : HandlerResult × StagedFiles :=
  if env.comfyReady = false then
    (failedResult "COMFY_NOT_READY"
      ("ComfyUI failed to start within " ++ toString env.readyTimeout ++ "s"),
      staged)
  else if job.image_base64.getD "" == "" then
    (failedResult "NO_IMAGE" "Missing required parameter: image_base64", staged)
  else
    match env.saveInputResult with
    | .error e => (failedResult "GENERATION_ERROR" e, staged)
    | .ok _ =>
      let staged1 := inputFilename :: staged
      let workflowType := job.workflow.getD "wan22_i2v"
      if workflowType == "flf2v" then
        if job.end_image_base64.getD "" == "" then
          (failedResult "NO_END_IMAGE" "FLF2V workflow requires end_image_base64",
            staged1)
        else
          match env.saveEndResult with
          | .error e => (failedResult "GENERATION_ERROR" e, staged1)
          | .ok _ => generateCore env job (endFilename :: staged1) true
      else
        generateCore env job staged1 false

/-- The dispatch mode chosen by `handler` (handler.py:664-676): `test`
when the `test` key is identically the boolean `True`, else `diagnose`
when the `diagnose` key is identically `True`, else `generate`. -/
inductive Mode where
  | test : Mode
  | diagnose : Mode
  | generate : Mode
deriving DecidableEq

/-- The `is True` dispatch chain of `handler`. -/
def dispatchMode (job : JobInput) : Mode :=
  if job.test = some (JValue.bool true) then .test
  else if job.diagnose = some (JValue.bool true) then .diagnose
  else .generate

/-- `handle_test_mode` (handler.py:234-253): always returns a record
with status `completed` (its health fields carry no verified
property). -/
def handle_test_mode : HandlerResult := ⟨"completed", none, none, none, none⟩

/-- `handle_diagnose_mode` (handler.py:256-312): always returns a
record with status `completed` (its diagnostic fields carry no verified
property). -/
def handle_diagnose_mode : HandlerResult := ⟨"completed", none, none, none, none⟩

/-- Shallow embedding of `handler` (handler.py:654-685): unwrap
`job.get("input", {})`, dispatch on the identically-`True` `test` and
`diagnose` keys, otherwise run generate mode.  The modelled mode
handlers raise nothing, so the final `except` clause of the source
(HANDLER_ERROR) is unreachable in the model. -/
def handler (env : GenEnv) (job : Option JobInput)
    (staged : StagedFiles) : HandlerResult × StagedFiles :=
  let inp := job.getD emptyJobInput
  match dispatchMode inp with
  | .test => (handle_test_mode, staged)
  | .diagnose => (handle_diagnose_mode, staged)
  | .generate => handle_generate_mode env inp staged

/-- A template that contains none of the target node
identifiers (`244`, `617`, `541`, `220`, `540`). -/
def wMissingSlots : Workflow := [("1", [("image", WValue.str "old.png")])]

/-- A minimal generate-mode job input carrying only an image and a
seed. -/
def jobGen : JobInput :=
  ⟨none, none, some "IMG64", none, none, some 42, none, none, none, none, none⟩

/-- An environment in which every external interaction succeeds: the
engine accepts the submission as job `P`, immediately reports the
null-node completion for `P`, and the history names an existing
`v.mp4` output. -/
def envOk : GenEnv :=
  ⟨true, 120, 600, .ok (), .ok (),
   fun _ => .ok wMissingSlots, 7, .ok (some "P"), .ok (),
   [⟨1, WsFrame.msg "executing" none (some "P") ""⟩],
   [("9", ⟨some [⟨some "v.mp4", ""⟩], none⟩)],
   fun p => p == "/ComfyUI/output/v.mp4", [], fun _ => .ok "B64"⟩

/-- A history record with a `gifs` artifact in its first output node
and a `videos` artifact in its second, both existing on disk. -/
def histTwoNodes : History :=
  [("1", ⟨none, some [⟨some "a.gif", ""⟩]⟩),
   ("2", ⟨some [⟨some "b.mp4", ""⟩], none⟩)]

/-- `histTwoNodes` with its second output node removed. -/
def histFirstNode : History := [("1", ⟨none, some [⟨some "a.gif", ""⟩]⟩)]

/-- The paths of both artifacts of `histTwoNodes` exist. -/
def feAB : String → Bool := fun p =>
  p == "/ComfyUI/output/a.gif" || p == "/ComfyUI/output/b.mp4"

/-- A history record whose single candidate points to a non-existent
file. -/
def histBad : History := [("9", ⟨some [⟨some "missing.mp4", ""⟩], none⟩)]

/-- A history record whose single candidate points to the same file the
directory fallback would find. -/
def histGood : History := [("9", ⟨some [⟨some "fb.mp4", ""⟩], none⟩)]

/-- Only the fallback file exists. -/
def feFb : String → Bool := fun p => p == "/ComfyUI/output/fb.mp4"

/-- The directory walk containing the fallback file. -/
def dirFb : List (String × Nat) := [("/ComfyUI/output/fb.mp4", 5)]

theorem wait_for_completion_nil (timeout : Nat) (promptId : String) (elapsed : Nat) :
    wait_for_completion timeout promptId elapsed [] =
      if timeout < elapsed then .timedOut else .exhausted := rfl

theorem wait_for_completion_cons (timeout : Nat) (promptId : String) (elapsed : Nat)
    (tf : TimedFrame) (rest : List TimedFrame) :
    wait_for_completion timeout promptId elapsed (tf :: rest) =
      if timeout < elapsed then .timedOut
      else if isCompletionFrame promptId tf.frame then .completed
      else if isErrorFrame tf.frame then .faulted tf.frame.payload
      else wait_for_completion timeout promptId (elapsed + tf.dt) rest := by
  obtain ⟨dt, f⟩ := tf
  cases f <;>
    simp only [wait_for_completion, isCompletionFrame, isErrorFrame, WsFrame.payload,
      Bool.false_eq_true, if_false]

theorem isCompletionFrame_false_of_isErrorFrame (promptId : String) (f : WsFrame)
    (h : isErrorFrame f = true) : isCompletionFrame promptId f = false := by
  cases f <;> simp_all [isErrorFrame, isCompletionFrame]

/-- C1: the monitor completes only by consuming a matching null-node
`executing` event; without such an event in the stream it never returns
the completed outcome; and consuming such an event while within budget
returns the completed outcome at once. -/
theorem monitor_completed_iff_null_node_matching (t : Nat) (p : String) (e : Nat)
    (frames : List TimedFrame) :
    (wait_for_completion t p e frames = .completed →
      ∃ tf ∈ frames, isCompletionFrame p tf.frame = true)
  ∧ ((∀ tf ∈ frames, isCompletionFrame p tf.frame = false) →
      wait_for_completion t p e frames ≠ .completed)
  ∧ (∀ tf rest, isCompletionFrame p tf.frame = true → e ≤ t →
      wait_for_completion t p e (tf :: rest) = .completed) := by
  have key : ∀ (l : List TimedFrame) (e : Nat),
      wait_for_completion t p e l = .completed →
        ∃ tf ∈ l, isCompletionFrame p tf.frame = true := by
    intro l
    induction l with
    | nil =>
      intro e h
      rw [wait_for_completion_nil] at h
      split at h <;> simp_all
    | cons tf rest ih =>
      intro e h
      rw [wait_for_completion_cons] at h
      by_cases ht : t < e
      · simp [ht] at h
      · rw [if_neg ht] at h
        by_cases hc : isCompletionFrame p tf.frame = true
        · exact ⟨tf, List.mem_cons_self tf rest, hc⟩
        · rw [if_neg (by simp [hc])] at h
          by_cases herr : isErrorFrame tf.frame = true
          · simp [herr] at h
          · rw [if_neg (by simp [herr])] at h
            obtain ⟨tf2, hmem, hcomp⟩ := ih (e + tf.dt) h
            exact ⟨tf2, List.mem_cons_of_mem tf hmem, hcomp⟩
  refine ⟨key frames e, ?_, ?_⟩
  · intro hnone hc
    obtain ⟨tf, hmem, hcomp⟩ := key frames e hc
    rw [hnone tf hmem] at hcomp
    exact Bool.false_ne_true hcomp
  · intro tf rest hcomp he
    rw [wait_for_completion_cons, if_neg (Nat.not_lt.mpr he), if_pos hcomp]

/-- Witness for the C1 theorem at a concrete stream. -/
theorem monitor_completed_iff_null_node_matching_witness :
    wait_for_completion 600 "A" 0
      [⟨1, WsFrame.msg "executing" none (some "A") "x"⟩] = .completed :=
  (monitor_completed_iff_null_node_matching 600 "A" 0 []).2.2
    ⟨1, WsFrame.msg "executing" none (some "A") "x"⟩ [] (by decide) (by decide)

/-- C2 counterexample: an `execution_error` event whose job identifier
(`"OTHER"`) differs from the awaited one (`"A"`) is not ignored — the
monitor faults on it even though a matching completion event follows. -/
theorem monitor_faults_on_foreign_error_counterexample :
    wait_for_completion 600 "A" 0
      [⟨1, WsFrame.msg "execution_error" none (some "OTHER") "boom"⟩,
       ⟨1, WsFrame.msg "executing" none (some "A") ""⟩] =
      .faulted "boom" := by decide

/-- C2 amended: the monitor transitions to the faulted outcome on the
first `execution_error` event regardless of the job identifier it carries,
carrying the serialized error payload verbatim; earlier non-terminal
frames are consumed (within budget) and later frames — including
matching completion events — are never reached. -/
theorem monitor_faults_on_first_error (t : Nat) (p : String) (e : Nat)
    (pre rest : List TimedFrame) (tf : TimedFrame)
    (hpre : ∀ q ∈ pre, isTerminalFrame p q.frame = false)
    (hbudget : ∀ i : Nat, i ≤ pre.length → e + sumDt (pre.take i) ≤ t)
    (herr : isErrorFrame tf.frame = true) :
    wait_for_completion t p e (pre ++ tf :: rest) = .faulted tf.frame.payload := by
  induction pre generalizing e with
  | nil =>
    have he : e ≤ t := by
      have := hbudget 0 (Nat.zero_le _)
      simpa [sumDt] using this
    rw [List.nil_append, wait_for_completion_cons, if_neg (Nat.not_lt.mpr he),
      if_neg (by simp [isCompletionFrame_false_of_isErrorFrame p tf.frame herr]),
      if_pos herr]
  | cons q pre ih =>
    have he : e ≤ t := by
      have := hbudget 0 (Nat.zero_le _)
      simpa [sumDt] using this
    have hq : isTerminalFrame p q.frame = false :=
      hpre q (List.mem_cons_self q pre)
    rw [isTerminalFrame, Bool.or_eq_false_iff] at hq
    rw [List.cons_append, wait_for_completion_cons, if_neg (Nat.not_lt.mpr he),
      if_neg (by simp [hq.1]), if_neg (by simp [hq.2])]
    refine ih (e + q.dt) (fun r hr => hpre r (List.mem_cons_of_mem q hr)) ?_
    intro i hi
    have h2 := hbudget (i + 1) (by simpa using Nat.succ_le_succ hi)
    simpa [sumDt, List.take_succ_cons, Nat.add_assoc] using h2

/-- Witness for the C2 amended theorem: a non-terminal foreign
`executing` frame is consumed, then the foreign `execution_error`
frame faults with its payload, with a matching completion frame left
unread behind it. -/
theorem monitor_faults_on_first_error_witness :
    wait_for_completion 600 "A" 0
      [⟨1, WsFrame.msg "executing" (some "n7") (some "A") ""⟩,
       ⟨1, WsFrame.msg "execution_error" none (some "OTHER") "boom2"⟩,
       ⟨1, WsFrame.msg "executing" none (some "A") ""⟩] =
      .faulted "boom2" :=
  monitor_faults_on_first_error 600 "A" 0
    [⟨1, WsFrame.msg "executing" (some "n7") (some "A") ""⟩]
    [⟨1, WsFrame.msg "executing" none (some "A") ""⟩]
    ⟨1, WsFrame.msg "execution_error" none (some "OTHER") "boom2"⟩
    (by decide) (by decide) (by decide)

/-- C3: if every frame the monitor can read while still within the
execution budget is non-terminal (neither a matching null-node
completion nor an execution error), and the total wall-clock time of
the reads exceeds the budget, the monitor reaches the timed-out
outcome: the budget is re-checked before every read, so neither
unrelated traffic nor silence (timeout reads) stalls it. -/
theorem monitor_timeout_on_budget (t : Nat) (p : String) (e : Nat)
    (frames : List TimedFrame)
    (hsafe : ∀ i : Fin frames.length, e + sumDt (frames.take i.1) ≤ t →
      isTerminalFrame p (frames.get i).frame = false)
    (hbudget : t < e + sumDt frames) :
    wait_for_completion t p e frames = .timedOut := by
  induction frames generalizing e with
  | nil =>
    rw [wait_for_completion_nil, if_pos (by simpa [sumDt] using hbudget)]
  | cons tf rest ih =>
    by_cases ht : t < e
    · rw [wait_for_completion_cons, if_pos ht]
    · have he : e ≤ t := Nat.not_lt.mp ht
      have h0 : isTerminalFrame p tf.frame = false := by
        have := hsafe ⟨0, by simp⟩
        simpa [sumDt] using this he
      have hc : isCompletionFrame p tf.frame = false := by
        simp only [isTerminalFrame, Bool.or_eq_false_iff] at h0
        exact h0.1
      have herr : isErrorFrame tf.frame = false := by
        simp only [isTerminalFrame, Bool.or_eq_false_iff] at h0
        exact h0.2
      rw [wait_for_completion_cons, if_neg ht, if_neg (by simp [hc]),
        if_neg (by simp [herr])]
      refine ih (e + tf.dt) ?_ ?_
      · intro i hi
        have h2 : e + sumDt ((tf :: rest).take (i.1 + 1)) ≤ t := by
          simpa [sumDt, List.take_succ_cons, Nat.add_assoc] using hi
        exact hsafe ⟨i.1 + 1, by simp⟩ h2
      · have h4 := hbudget
        simp only [sumDt, List.map_cons, List.sum_cons] at h4 ⊢
        omega

/-- Witness for the C3 theorem: a stream of one silent read, one
foreign `executing` frame and one more silent read whose total time
exceeds the budget times out. -/
theorem monitor_timeout_on_budget_witness :
    wait_for_completion 600 "A" 0
      [⟨300, WsFrame.timeoutRead⟩,
       ⟨300, WsFrame.msg "executing" (some "n1") (some "OTHER") ""⟩,
       ⟨300, WsFrame.timeoutRead⟩] = .timedOut :=
  monitor_timeout_on_budget 600 "A" 0
    [⟨300, WsFrame.timeoutRead⟩,
     ⟨300, WsFrame.msg "executing" (some "n1") (some "OTHER") ""⟩,
     ⟨300, WsFrame.timeoutRead⟩]
    (by decide) (by decide)

theorem lookup_setKey_ne (k k2 : String) (v : WValue) (hne : k2 ≠ k)
    (m : NodeInputs) : (setKey m k v).lookup k2 = m.lookup k2 := by
  induction m with
  | nil => simp [setKey, List.lookup, beq_eq_false_iff_ne.mpr hne]
  | cons p rest ih =>
    obtain ⟨p1, p2⟩ := p
    by_cases hpk : (p1 == k) = true
    · have hk2p : (k2 == p1) = false :=
        beq_eq_false_iff_ne.mpr (fun hEq => hne (hEq.trans (beq_iff_eq.mp hpk)))
      simp [setKey, hpk, List.lookup, hk2p]
    · cases hk2 : (k2 == p1) <;> simp [setKey, hpk, List.lookup, hk2, ih]

theorem lookupInput_setInput_ne (w : Workflow) (nid k nid2 k2 : String)
    (v : WValue) (hne : k2 ≠ k) :
    lookupInput (setInput w nid k v) nid2 k2 = lookupInput w nid2 k2 := by
  induction w with
  | nil => rfl
  | cons p rest ih =>
    obtain ⟨p1, p2⟩ := p
    by_cases hp : (p1 == nid) = true
    · cases h2 : (nid2 == p1) <;>
        simp [setInput, hp, lookupInput, List.lookup, h2,
          lookup_setKey_ne k k2 v hne]
    · simp only [setInput, if_neg hp]
      cases h2 : (nid2 == p1)
      · simp only [lookupInput, List.lookup, h2] at ih ⊢
        exact ih
      · simp [lookupInput, List.lookup, h2]

theorem setInput_containsNode (w : Workflow) (nid nid2 k : String) (v : WValue) :
    containsNode (setInput w nid k v) nid2 = containsNode w nid2 := by
  induction w with
  | nil => rfl
  | cons p rest ih =>
    obtain ⟨p1, p2⟩ := p
    by_cases hp : (p1 == nid) = true
    · simp [setInput, hp, containsNode]
    · simp only [setInput, if_neg hp, containsNode, List.any_cons] at ih ⊢
      rw [ih]

theorem lookupInput_ite_setInput (c : Prop) [Decidable c] (w : Workflow)
    (nid' k' nid k : String) (v : WValue) (hk : k ≠ k') :
    lookupInput (if c then setInput w nid' k' v else w) nid k
      = lookupInput w nid k := by
  split
  · exact lookupInput_setInput_ne w nid' k' nid k v hk
  · rfl

theorem lookupInput_applyParams_ne (w : Workflow)
    (seed cfg steps numFrames : Int) (nid k : String)
    (h1 : k ≠ "num_frames") (h2 : k ≠ "seed") (h3 : k ≠ "cfg")
    (h4 : k ≠ "steps") :
    lookupInput (applyParams w seed cfg steps numFrames) nid k
      = lookupInput w nid k := by
  simp only [applyParams]
  have step540 : ∀ w2 : Workflow,
      lookupInput (if containsNode w2 "540" then
          setInput (setInput w2 "540" "seed" (.num seed)) "540" "cfg" (.num cfg)
        else w2) nid k = lookupInput w2 nid k := by
    intro w2
    split
    · rw [lookupInput_setInput_ne _ _ _ _ _ _ h3,
        lookupInput_setInput_ne _ _ _ _ _ _ h2]
    · rfl
  have step220 : ∀ w1 : Workflow,
      lookupInput (if containsNode w1 "220" then
          setInput (setInput (setInput w1 "220" "seed" (.num seed))
            "220" "cfg" (.num cfg)) "220" "steps" (.num steps)
        else w1) nid k = lookupInput w1 nid k := by
    intro w1
    split
    · rw [lookupInput_setInput_ne _ _ _ _ _ _ h4,
        lookupInput_setInput_ne _ _ _ _ _ _ h3,
        lookupInput_setInput_ne _ _ _ _ _ _ h2]
    · rfl
  rw [step540, step220]
  exact lookupInput_ite_setInput _ w "541" "num_frames" nid k _ h1

/-- C4 counterexample: with a template lacking the image slot `244` and
all numeric slots, the patch step returns the template unchanged (the
source logs a warning and continues) and the parameter application is a
no-op — no SlotMissing failure exists, and the run proceeds through
submission all the way to a completed result. -/
theorem binder_silent_skip_counterexample :
    patch_workflow_image wMissingSlots inputFilename "244" = wMissingSlots
  ∧ applyParams wMissingSlots 42 2 10 81 = wMissingSlots
  ∧ (handle_generate_mode envOk jobGen []).1.status = "completed" := by
  refine ⟨by decide, by decide, by decide⟩

/-- C4 amended: when a target node identifier is absent from the
template, the binder silently skips the assignment — `patch_workflow_image`
returns the workflow untouched after logging a warning, and the
seed/cfg/steps/num_frames guards skip their blocks — and no error is
raised. -/
theorem binder_skips_missing_slots (w : Workflow) (img nid : String)
    (seed cfg steps numFrames : Int)
    (hn : containsNode w nid = false)
    (h541 : containsNode w "541" = false)
    (h220 : containsNode w "220" = false)
    (h540 : containsNode w "540" = false) :
    patch_workflow_image w img nid = w
  ∧ applyParams w seed cfg steps numFrames = w := by
  constructor
  · rw [patch_workflow_image, if_neg (by simp [hn])]
  · simp [applyParams, h541, h220, h540]

/-- Witness for the C4 amended theorem at a concrete template without
the node identifiers targeted by the binder. -/
theorem binder_skips_missing_slots_witness :
    patch_workflow_image wMissingSlots "img.png" "244" = wMissingSlots
  ∧ applyParams wMissingSlots 5 6 7 8 = wMissingSlots :=
  binder_skips_missing_slots wMissingSlots "img.png" "244" 5 6 7 8
    (by decide) (by decide) (by decide) (by decide)

/-- C5 counterexample: a request with a non-numeric `width` and a
numeric `height` of 500 is not rejected with any InvalidParameter
failure — the run completes — and a template node carrying
`width`/`height` inputs keeps its original 832 values after parameter
application (no snapped 496 or 512 is bound anywhere). -/
theorem width_height_ignored_counterexample :
    (handle_generate_mode envOk
      (withDims jobGen (some (JValue.str "abc")) (some (JValue.num 500)))
      []).1.status = "completed"
  ∧ applyParams [("232", [("width", WValue.num 832), ("height", WValue.num 832)])]
      42 2 10 81
      = [("232", [("width", WValue.num 832), ("height", WValue.num 832)])] := by
  refine ⟨by decide, by decide⟩

/-- C5 amended: the handler ignores the `width` and `height` of the request
entirely — the generate run is independent of those fields, no snapping
or validation occurs, and parameter application never touches any
`width`/`height` inputs of any node. -/
theorem width_height_ignored (env : GenEnv) (job : JobInput)
    (staged : StagedFiles) (wv hv : Option JValue) (w : Workflow)
    (seed cfg steps numFrames : Int) (nid : String) :
    handle_generate_mode env (withDims job wv hv) staged
      = handle_generate_mode env job staged
  ∧ lookupInput (applyParams w seed cfg steps numFrames) nid "width"
      = lookupInput w nid "width"
  ∧ lookupInput (applyParams w seed cfg steps numFrames) nid "height"
      = lookupInput w nid "height" := by
  refine ⟨rfl, ?_, ?_⟩
  · exact lookupInput_applyParams_ne w seed cfg steps numFrames nid "width"
      (by decide) (by decide) (by decide) (by decide)
  · exact lookupInput_applyParams_ne w seed cfg steps numFrames nid "height"
      (by decide) (by decide) (by decide) (by decide)

theorem findSome?_eq_head?_filterMap {α β : Type} (f : α → Option β)
    (l : List α) : l.findSome? f = (l.filterMap f).head? := by
  induction l with
  | nil => rfl
  | cons a rest ih =>
    have hfs : (a :: rest).findSome? f
        = (match f a with | some b => some b | none => rest.findSome? f) := rfl
    have hfm : (a :: rest).filterMap f
        = (match f a with
           | none => rest.filterMap f
           | some b => b :: rest.filterMap f) := rfl
    rw [hfs, hfm]
    cases h : f a
    · exact ih
    · rfl

/-- C6 counterexample: on a history record with two verified-existing
candidates in two output nodes, `find_output_video` returns only the
first one — a single optional path, not the ordered list of both — so
its result is indistinguishable from the record that lacks the second
candidate entirely. -/
theorem resolver_single_result_counterexample :
    find_output_video feAB [] histTwoNodes = some "/ComfyUI/output/a.gif"
  ∧ find_output_video feAB [] histTwoNodes
      = find_output_video feAB [] histFirstNode := by
  refine ⟨by decide, by decide⟩

/-- C6 amended: the history scan of the resolver returns exactly the head of
the ordered candidate list — the first verified-existing artifact in
history-record iteration order (`videos` before `gifs` inside each
node) — and discards all later candidates. -/
theorem scanOutputs_eq_head_orderedCandidates (fe : String → Bool)
    (h : History) :
    scanOutputs fe h = (orderedCandidates fe h).head? := by
  induction h with
  | nil => rfl
  | cons p rest ih =>
    obtain ⟨nid, n⟩ := p
    rw [scanOutputs, findSome?_eq_head?_filterMap]
    simp only [orderedCandidates, List.flatMap_cons, List.filterMap_append]
    cases hfm : List.filterMap (goodPath fe) (nodeItems n) with
    | nil =>
      simp only [hfm, List.head?, List.nil_append]
      simp only [orderedCandidates] at ih
      exact ih
    | cons x xs => simp [hfm]

/-- C7 counterexample: a history-resolved result and a
directory-fallback result are the same bare path — the return value
carries no lower-confidence flag, so callers cannot distinguish the two
origins. -/
theorem resolver_no_confidence_flag_counterexample :
    find_output_video feFb dirFb histBad = some "/ComfyUI/output/fb.mp4"
  ∧ find_output_video feFb dirFb histGood = some "/ComfyUI/output/fb.mp4" := by
  refine ⟨by decide, by decide⟩

/-- C7 amended: when the history scan verifies no candidate, the
resolver falls back to the newest `.mp4` of the output-directory walk,
returning it as a bare path with no confidence marking. -/
theorem resolver_fallback_on_empty_scan (fe : String → Bool)
    (dirFiles : List (String × Nat)) (h : History)
    (hnone : scanOutputs fe h = none) :
    find_output_video fe dirFiles h = newestMp4 dirFiles := by
  simp [find_output_video, hnone]

/-- Witness for the C7 amended theorem: a record of non-existent
candidates resolves to the newest walked `.mp4`. -/
theorem resolver_fallback_on_empty_scan_witness :
    find_output_video feFb dirFb histBad = newestMp4 dirFb :=
  resolver_fallback_on_empty_scan feFb dirFb histBad (by decide)

theorem generateCore_staged (env : GenEnv) (job : JobInput)
    (st : StagedFiles) (b : Bool) : (generateCore env job st b).2 = st := by
  simp only [generateCore]
  repeat' split
  all_goals rfl

theorem handle_generate_mode_staged (env : GenEnv) (job : JobInput)
    (staged : StagedFiles) :
    (handle_generate_mode env job staged).2 = staged
  ∨ (handle_generate_mode env job staged).2 = inputFilename :: staged
  ∨ (handle_generate_mode env job staged).2
      = endFilename :: inputFilename :: staged := by
  simp only [handle_generate_mode]
  repeat' split
  all_goals simp [generateCore_staged]

/-- C8 counterexample: a fully successful generate run ends with the
staged input image still present in the input directory — nothing is
removed on the completion path (nor on any other). -/
theorem staging_survives_counterexample :
    (handle_generate_mode envOk jobGen []).2 = [inputFilename]
  ∧ (handle_generate_mode envOk jobGen []).1.status = "completed" := by
  refine ⟨by decide, by decide⟩

/-- C8 amended: the generate run never removes a staged file on any
exit path, and the only names it ever stages are the fixed
`tenexa_input.png` and `tenexa_end.png` shared by every submission. -/
theorem staging_shared_and_never_removed (env : GenEnv) (job : JobInput)
    (staged : StagedFiles) (x : String) :
    (x ∈ staged → x ∈ (handle_generate_mode env job staged).2)
  ∧ (x ∈ (handle_generate_mode env job staged).2 →
      x ∈ staged ∨ x = inputFilename ∨ x = endFilename) := by
  rcases handle_generate_mode_staged env job staged with h | h | h <;>
    rw [h] <;> constructor <;> intro hx <;> simp_all [List.mem_cons] <;> tauto

/-- Witness for the C8 amended theorem: a pre-existing staged file is
still present after a completed run. -/
theorem staging_shared_and_never_removed_witness :
    "a.png" ∈ (handle_generate_mode envOk jobGen ["a.png"]).2 :=
  (staging_shared_and_never_removed envOk jobGen ["a.png"] "a.png").1
    (by decide)

theorem generateCore_structured (env : GenEnv) (job : JobInput)
    (st : StagedFiles) (b : Bool) :
    (generateCore env job st b).1.status = "completed"
  ∨ ((generateCore env job st b).1.status = "failed"
      ∧ (generateCore env job st b).1.error_code.isSome = true
      ∧ (generateCore env job st b).1.error_message.isSome = true) := by
  simp only [generateCore]
  repeat' split
  all_goals simp [failedResult]

theorem handle_generate_mode_structured (env : GenEnv) (job : JobInput)
    (staged : StagedFiles) :
    (handle_generate_mode env job staged).1.status = "completed"
  ∨ ((handle_generate_mode env job staged).1.status = "failed"
      ∧ (handle_generate_mode env job staged).1.error_code.isSome = true
      ∧ (handle_generate_mode env job staged).1.error_message.isSome = true) := by
  simp only [handle_generate_mode]
  repeat' split
  all_goals first
    | simp [failedResult]
    | exact generateCore_structured env job _ _

/-- C9: every result the handler returns either has status `completed`
or has status `failed` together with a present machine-readable
`error_code` and a present human-readable `error_message` — every
failure inside readiness checking, staging, template loading,
submission, monitoring, artifact resolution or encoding is recovered
into such a structured record, and no path returns an empty or
ambiguous result. -/
theorem handler_failures_structured (env : GenEnv) (job : Option JobInput)
    (staged : StagedFiles) :
    (handler env job staged).1.status = "completed"
  ∨ ((handler env job staged).1.status = "failed"
      ∧ (handler env job staged).1.error_code.isSome = true
      ∧ (handler env job staged).1.error_message.isSome = true) := by
  simp only [handler]
  cases h : dispatchMode (job.getD emptyJobInput)
  · left
    rfl
  · left
    rfl
  · exact handle_generate_mode_structured env (job.getD emptyJobInput) staged

/-- C10: the handler dispatches to test mode exactly when the `test`
key is identically the boolean `True`, to diagnose mode exactly when
`test` is not identically `True` and `diagnose` is (test is checked
first), and otherwise — including truthy values such as `1` or the
string `"true"` — falls through to generate mode. -/
theorem dispatch_identical_true (inp : JobInput) :
    (dispatchMode inp = Mode.test ↔ inp.test = some (JValue.bool true))
  ∧ (dispatchMode inp = Mode.diagnose ↔
      (inp.test ≠ some (JValue.bool true)
        ∧ inp.diagnose = some (JValue.bool true)))
  ∧ (inp.test ≠ some (JValue.bool true) →
      inp.diagnose ≠ some (JValue.bool true) →
      dispatchMode inp = Mode.generate)
  ∧ (∀ (env : GenEnv) (staged : StagedFiles),
      dispatchMode inp = Mode.generate →
      handler env (some inp) staged = handle_generate_mode env inp staged) := by
  refine ⟨?_, ?_, ?_, ?_⟩
  · unfold dispatchMode
    split_ifs with h1 h2 <;> simp_all
  · unfold dispatchMode
    split_ifs with h1 h2 <;> simp_all
  · intro h1 h2
    unfold dispatchMode
    rw [if_neg h1, if_neg h2]
  · intro env staged hg
    simp only [handler, Option.getD_some, hg]

/-- Witness for the C10 theorem: a job input with the truthy-but-not-
identical values `1` for `test` and `"true"` for `diagnose` is
dispatched to generate mode. -/
theorem dispatch_identical_true_witness :
    dispatchMode ⟨some (JValue.num 1), some (JValue.str "true"),
      none, none, none, none, none, none, none, none, none⟩ = Mode.generate :=
  (dispatch_identical_true _).2.2.1 (by decide) (by decide)
